import Mathlib

/-!
Verification of the treeifier-utils render-strategy layer.

This file gives a shallow embedding of the source file
src/treeifier-utils.ts (class TreeifierUtils): the four render
strategies (Types View, Values View, Structural-Markup/HTML View,
Self-Inspection/Debug View), the process-wide color registry with its
reset operation, and the debugResultNode entry point.  The node model
is the read-only view of the collaborator's TreeifierNode that this
layer consumes (spec section 3): each strategy reads a node's metadata
and the already-cached processResult strings of its children.

JavaScript-specific semantics that the source relies on (operator
precedence of + versus the nullish-coalescing operator, string
truthiness, loose equality, string coercion of undefined) are modelled
explicitly by small helper functions, each documented at its
definition.
-/

/-- Modelled from the spec: the collaborator's closed node-kind
classification (the TreeifierNodeTypes enum of the external treeifier
core package, which is not part of this repository).  The source of
this layer references only the arrayofobjects member by name; the
remaining members stand for the classification set of spec section 3
(scalars, objects, arrays, functions, and their empty variants). -/
inductive TreeifierNodeTypes where
  | unknown
  | value
  | object
  | emptyObject
  | array
  | emptyArray
  | arrayofobjects
  | emptyArrayOfObjects
  | func
deriving DecidableEq

/-- Model of the JavaScript values that appear as the value attribute of
a node as far as this layer inspects them: numbers, strings, booleans,
null, undefined, arrays, objects (of which only the path property is
ever read), and node-kind enum values (read by the Debug view's
nodeType formatting rule). -/
inductive JSVal where
  | num (n : Int)
  | str (s : String)
  | boolean (b : Bool)
  | null
  | undef
  | arr (elems : List JSVal)
  | obj (path : Option String)
  | nodeKind (t : TreeifierNodeTypes)

/-- Reading the path property of a JavaScript value: only object values
carry one; reading it on a primitive yields undefined (none).  The
source only evaluates this behind checks that rule out null and
undefined receivers. -/
def jsPath : JSVal → Option String
  | .obj p => p
  | _ => none

/-- Strict equality test against null (the source writes value === null,
which holds for null only, not for undefined). -/
def jsIsNull : JSVal → Bool
  | .null => true
  | _ => false

/-- JavaScript comparison value < 0.  The comparison coerces via
ToNumber: booleans and null map to 0 or 1 and are never negative;
undefined and the object-like values modelled here coerce to NaN, and
every comparison with NaN is false.  Numeric strings are approximated
by integer parsing; non-numeric strings behave as NaN.  The source
evaluates this only on the circularRefIndex attribute, which is always
a number. -/
def jsLtZero : JSVal → Bool
  | .num n => n < 0
  | .str s =>
    match s.toInt? with
    | some n => n < 0
    | none => false
  | _ => false

/-- JavaScript loose equality value == true: true coerces to the number
1, so the numbers 1 and the string "1" compare equal to true, while
null, undefined and false do not.  The source evaluates this only on
the isCircular attribute, which is always a boolean. -/
def jsLooseEqTrue : JSVal → Bool
  | .boolean b => b
  | .num n => n == 1
  | .str s =>
    match s.toInt? with
    | some n => n == 1
    | none => false
  | _ => false

/-- JavaScript test value.length < 1: arrays and strings have a length;
on numbers, booleans and plain objects the length property is undefined
and the comparison undefined < 1 is false (on null or undefined the
access would throw; the source evaluates this only on the children
attribute, which is always an array, so that path is unreachable). -/
def jsLengthLt1 : JSVal → Bool
  | .arr elems => elems.length < 1
  | .str s => s.length < 1
  | _ => false

/-- JavaScript string conversion applied by string concatenation to a
possibly-undefined operand: undefined prints as the text undefined. -/
def jsStringOfUndefinable : Option String → String
  | some s => s
  | none => "undefined"

/-- Nullish coalescing a ?? b where a is already a string: a string
value is never null or undefined, so the fallback b is not used.  The
Values View builds its circular annotation with the expression
a + b ?? c, and + binds tighter than ??, so the coalescing applies to
the concatenated string and this function captures it exactly. -/
def jsNullishOrString (a : String) (_b : String) : String := a

/-- Character-level model of the source's replacement of line breaks by
the two-character marker backslash-n (a regular expression matching a
carriage-return/line-feed pair, a lone line feed, or a lone carriage
return, replaced globally). -/
def escapeNewlinesAux : List Char → List Char
  | [] => []
  | '\r' :: '\n' :: rest => '\\' :: 'n' :: escapeNewlinesAux rest
  | '\r' :: rest => '\\' :: 'n' :: escapeNewlinesAux rest
  | '\n' :: rest => '\\' :: 'n' :: escapeNewlinesAux rest
  | ch :: rest => ch :: escapeNewlinesAux rest

/-- String wrapper for the line-break escaping of the Debug view. -/
def escapeNewlines (s : String) : String := String.mk (escapeNewlinesAux s.data)

/-- View of a child node as read by every strategy: a strategy never
recurses into a child; it reads only the child's cached processResult
string, which the collaborator's bottom-up traversal has populated
before the parent is visited (spec sections 3 and 4.3). -/
structure ChildNode where
  processResult : String

/-- View of a referenced node (the target of circularRefNode, or an
entry of ancestors) as read by this layer: its key, its path, and its
value attribute (of which only the path property is read, by the Debug
view). -/
structure RefNode where
  key : String
  path : String
  value : JSVal

/-- Read-only node abstraction consumed by the render strategies (spec
section 3).  The source field prefix is a Lean keyword and is renamed
prefixStr; parent is modelled by what the source reads from it, namely
its presence and its nodeType; toStr models the node's canonical
string conversion (the toString method of the collaborator's node). -/
structure TreeifierNode where
  key : String
  value : JSVal
  toStr : String
  path : String
  prefixStr : String
  joint : String
  nodeType : TreeifierNodeTypes
  parent : Option TreeifierNodeTypes
  children : List ChildNode
  isCircular : Bool
  circularRefNode : Option RefNode
  ancestors : List RefNode

/-- Modelled from the spec, section 3: isLeaf is derived from the child
sequence being empty. -/
def TreeifierNode.isLeaf (n : TreeifierNode) : Bool := n.children.isEmpty

/-- Modelled from the spec, section 3: isBranch is the mutually
exclusive opposite of isLeaf. -/
def TreeifierNode.isBranch (n : TreeifierNode) : Bool := !n.children.isEmpty

/-- State of the process-wide style registry: the four static color
fields of the TreeifierUtils class, each a text-decoration function
from strings to strings (spec section 4.1). -/
structure ColorState where
  StructureColor : String → String
  KeyColor : String → String
  ValueColor : String → String
  CircularColor : String → String

/-- Text decoration of the chalk blue function: wraps the string in the
ANSI color 34 escape and the default-foreground escape. -/
def chalkBlue (s : String) : String := "\x1b[34m" ++ s ++ "\x1b[39m"

/-- Text decoration of the chalk white function (ANSI color 37). -/
def chalkWhite (s : String) : String := "\x1b[37m" ++ s ++ "\x1b[39m"

/-- Text decoration of the chalk greenBright function (ANSI color 92). -/
def chalkGreenBright (s : String) : String := "\x1b[92m" ++ s ++ "\x1b[39m"

/-- Text decoration of the chalk redBright function (ANSI color 91). -/
def chalkRedBright (s : String) : String := "\x1b[91m" ++ s ++ "\x1b[39m"

namespace TreeifierUtils

/-- Default structure color of the registry (the private static
defaultStructureColor, chalk.blue). -/
def defaultStructureColor : String → String := chalkBlue

/-- Default key color of the registry (chalk.white). -/
def defaultKeyColor : String → String := chalkWhite

/-- Default value color of the registry (chalk.greenBright). -/
def defaultValueColor : String → String := chalkGreenBright

/-- Default circular-reference color of the registry (chalk.redBright). -/
def defaultCircularColor : String → String := chalkRedBright

/-- Registry state holding the four default decorations, the state in
which the class initializes its static fields. -/
def defaultColors : ColorState :=
  ⟨defaultStructureColor, defaultKeyColor, defaultValueColor, defaultCircularColor⟩

/-- Registry state applying no decoration at all: the behavior of every
chalk function when the host reports no color support.  Used to state
content-level properties of the rendered text; the spec (section 1)
treats decoration as an opaque text wrapper. -/
def plainColors : ColorState := ⟨id, id, id, id⟩

/-- Translation of TreeifierUtils.resetAllColors: assigns each of the
four static color fields its default decoration. -/
def resetAllColors (st : ColorState) : ColorState :=
  { st with
    StructureColor := defaultStructureColor
    KeyColor := defaultKeyColor
    ValueColor := defaultValueColor
    CircularColor := defaultCircularColor }

/-- Translation of TreeifierUtils.nodeTypeToString: the TypeScript
reverse enum lookup maps each member to its identifier. -/
def nodeTypeToString (nodetype : TreeifierNodeTypes) : String :=
  match nodetype with
  | .unknown => "unknown"
  | .value => "value"
  | .object => "object"
  | .emptyObject => "emptyObject"
  | .array => "array"
  | .emptyArray => "emptyArray"
  | .arrayofobjects => "arrayofobjects"
  | .emptyArrayOfObjects => "emptyArrayOfObjects"
  | .func => "function"

/-- Translation of TreeifierUtils.defaultColoredTypesProcessor.  The
registry state is passed explicitly; the child loop appends a newline
and the child's cached processResult for every child whose cached
result is truthy, that is, a non-empty string. -/
def defaultColoredTypesProcessor (c : ColorState) (node : TreeifierNode) : String :=
  let result := c.StructureColor (node.prefixStr ++ node.joint) ++
    c.KeyColor node.key ++
    c.StructureColor " : " ++
    c.ValueColor (nodeTypeToString node.nodeType)
  if node.isBranch then
    node.children.foldl
      (fun acc child =>
        if child.processResult = "" then acc else acc ++ "\n" ++ child.processResult)
      result
  else result

/-- Translation of TreeifierUtils.defaultColoredValuesProcessor.  The
circular annotation translates the source expression
an arrow plus node.circularRefNode?.key, then ?? with a question-mark
fallback: since + binds tighter than ??, the concatenation (which
renders a missing key as the text undefined) happens first and the
fallback never applies; jsNullishOrString keeps that dead fallback
visible.  The separator is emitted only when the value text is truthy
(non-empty). -/
def defaultColoredValuesProcessor (c : ColorState) (node : TreeifierNode) : String :=
  let circular :=
    if node.isCircular then
      jsNullishOrString
        (" -> " ++ jsStringOfUndefinable (node.circularRefNode.map (fun r => r.key))) "?"
    else ""
  let nodeValue := if node.isLeaf then node.toStr else ""
  let result := c.StructureColor (node.prefixStr ++ node.joint) ++
    c.KeyColor node.key ++
    c.StructureColor (if nodeValue = "" then "" else " : ") ++
    c.ValueColor nodeValue ++
    c.CircularColor circular
  if node.isBranch then
    node.children.foldl
      (fun acc child =>
        if child.processResult = "" then acc else acc ++ "\n" ++ child.processResult)
      result
  else result

/-- Translation of TreeifierUtils.defaultHTMLProcessor.  This strategy
never reads the color registry.  The closing tag is built from the
first two characters of the opening list type, exactly as the source
does with substr. -/
def defaultHTMLProcessor (node : TreeifierNode) : String :=
  let result := ""
  let circularKey := (node.circularRefNode.map (fun r => r.key)).getD "?"
  let circularPath := (node.circularRefNode.map (fun r => r.path)).getD ""
  let circularLink :=
    if node.isCircular then
      "<a href=\"#list@" ++ circularPath ++ "\">" ++ circularKey ++ "</a>"
    else circularKey
  let circularReference :=
    if node.isCircular then
      "<span class=\"circularlink\">" ++ circularLink ++ "</span>"
    else ""
  let nodeTypeClass := "nt_" ++ nodeTypeToString node.nodeType
  let nodeKey :=
    if node.parent = some TreeifierNodeTypes.arrayofobjects then ""
    else "<span class=\"key\">" ++ node.key ++ "</span>: "
  let nodeValue :=
    if node.isLeaf then
      "<span class=\"value" ++ (if node.isCircular then " circular" else "") ++ "\">" ++
        node.toStr ++ "</span> " ++ circularReference
    else ""
  let result :=
    if node.parent.isSome then
      "<li id=\"" ++ node.path ++ "\" class=\"leaf " ++ nodeTypeClass ++ "\">\n" ++
        nodeKey ++ nodeValue
    else result
  let result :=
    if node.isBranch then
      let listType :=
        if node.nodeType = TreeifierNodeTypes.arrayofobjects then "ol start=\"0\"" else "ul"
      let list := "<" ++ listType ++ " id=\"list@" ++ node.path ++ "\" class=\"branch " ++
        nodeTypeClass ++ "\">"
      let list := node.children.foldl
        (fun acc child =>
          if child.processResult = "" then acc else acc ++ "\n" ++ child.processResult)
        list
      let list := list ++ "\n</" ++ listType.take 2 ++ ">"
      result ++ "\n" ++ list
    else result
  if node.parent.isSome then result ++ "\n</li>" else result

/-- Reverse enum lookup applied by the Debug view to the value of a
nodeType attribute: an enum member maps to its identifier, any other
value looks up to undefined, which prints as the text undefined when
concatenated into the output line. -/
def jsNodeTypeName : JSVal → String
  | .nodeKind t => nodeTypeToString t
  | _ => "undefined"

/-- Translation of the private TreeifierUtils.debugProcessor.  The
guards are checked in source order against the node's own key:
line-break escaping for processResult, kind formatting for nodeType,
full suppression of ancestors when the node's circularRefNode is null,
then the bracketed ancestor-path list, then the suppression rules for
circularRefIndex, circularRefNode, isCircular and children, and
finally the output line, which aggregates children except for the
ancestors special case. -/
def debugProcessor (c : ColorState) (node : TreeifierNode) : String :=
  let circular :=
    if node.isCircular then
      match node.circularRefNode with
      | some r => (jsPath r.value).getD r.key
      | none => ""
    else ""
  let s0 := node.toStr
  let s1 := if node.key = "processResult" then escapeNewlines s0 else s0
  let s2 := if node.key = "nodeType" then jsNodeTypeName node.value else s1
  if node.key = "ancestors" ∧ node.circularRefNode.isNone then ""
  else
    let s3 :=
      if node.key = "ancestors" then
        "[" ++ String.intercalate ", "
          (node.ancestors.map (fun e => (jsPath e.value).getD "")) ++ "]"
      else s2
    if node.key = "circularRefIndex" ∧ jsLtZero node.value then ""
    else if node.key = "circularRefNode" ∧ jsIsNull node.value then ""
    else if node.key = "isCircular" ∧ ¬ jsLooseEqTrue node.value then ""
    else if node.key = "children" ∧ jsLengthLt1 node.value then ""
    else
      let result := c.StructureColor (node.prefixStr ++ node.joint) ++
        c.KeyColor node.key ++
        c.ValueColor (if node.isLeaf ∨ node.key = "ancestors" then " " ++ s3 else "") ++
        c.CircularColor (" " ++ circular)
      if node.isBranch ∧ ¬ (node.key = "ancestors") then
        node.children.foldl
          (fun acc child =>
            if child.processResult = "" then acc else acc ++ "\n" ++ child.processResult)
          result
      else result

end TreeifierUtils

/-- Modelled from the spec: the collaborator's traversal engine (the
Treeifier class of the external treeifier core package, which is not
part of this repository).  The spec (sections 1 and 4.4) treats it as
external and specified only by its interface: its process entry point
takes an item, a label for the synthetic root, and a render strategy,
builds the node tree and renders every node bottom-up with the
strategy, returning the rendered string.  An engine instance is
abstracted by that entry point. -/
structure Treeifier where
  processFn : TreeifierNode → String → (ColorState → TreeifierNode → String) → String

/-- Modelled from the spec: construction of a fresh default engine.
Its traversal behavior is external to this layer; the interface-level
model applies the given strategy to the given root, relabeled with the
given label, under the default registry.  No theorem below depends on
this body. -/
def Treeifier.new : Treeifier :=
  ⟨fun item label strategy => strategy TreeifierUtils.defaultColors { item with key := label }⟩

namespace TreeifierUtils

/-- Translation of TreeifierUtils.debugResultNode: picks the supplied
engine or a fresh default one, and renders the given root through the
Debug strategy under the label debug@ concatenated with the root's
key. -/
def debugResultNode (rootnode : TreeifierNode) (treeifier : Option Treeifier) : String :=
  let debugTreeifier := treeifier.getD Treeifier.new
  debugTreeifier.processFn rootnode ("debug@" ++ rootnode.key) debugProcessor

end TreeifierUtils

/-- Names for the four render strategies of the layer. -/
inductive StrategyId where
  | types
  | values
  | html
  | debug

/-- Dispatch of a strategy name to its translated render function; the
HTML strategy ignores the registry (its source body never reads the
color fields). -/
def applyStrategy : StrategyId → ColorState → TreeifierNode → String
  | .types, c, n => TreeifierUtils.defaultColoredTypesProcessor c n
  | .values, c, n => TreeifierUtils.defaultColoredValuesProcessor c n
  | .html, _, n => TreeifierUtils.defaultHTMLProcessor n
  | .debug, c, n => TreeifierUtils.debugProcessor c n

/-- Invocation of a strategy against the process-wide registry, as a
state action over the registry state: the source bodies of all four
processors contain no assignment to the four static color fields (the
only writes in the class occur in resetAllColors), so an invocation
reads the registry and leaves it unchanged. -/
def registryRender (s : StrategyId) (n : TreeifierNode) : StateM ColorState String := do
  let st ← get
  pure (applyStrategy s st n)

/-- Concatenation contributed by a branch node's children: for each
child in order, a newline followed by its cached processResult when
that result is non-empty, and nothing at all otherwise. -/
def childSuffix : List ChildNode → String
  | [] => ""
  | child :: rest =>
    (if child.processResult = "" then "" else "\n" ++ child.processResult) ++ childSuffix rest

theorem foldl_childSuffix (l : List ChildNode) (init : String) :
    List.foldl
      (fun acc child =>
        if child.processResult = "" then acc else acc ++ "\n" ++ child.processResult)
      init l = init ++ childSuffix l := by
  induction l generalizing init with
  | nil => simp [childSuffix]
  | cons child rest ih =>
    simp only [List.foldl_cons, childSuffix]
    by_cases h : child.processResult = ""
    · rw [if_pos h, if_pos h, ih, String.empty_append]
    · rw [if_neg h, if_neg h, ih]
      simp only [String.append_assoc]

theorem foldl_childSuffix_assoc (l : List ChildNode) (init : String) :
    List.foldl
      (fun acc child =>
        if child.processResult = "" then acc else acc ++ ("\n" ++ child.processResult))
      init l = init ++ childSuffix l := by
  have hf : (fun (acc : String) (child : ChildNode) =>
      if child.processResult = "" then acc else acc ++ ("\n" ++ child.processResult)) =
      (fun acc child =>
        if child.processResult = "" then acc else acc ++ "\n" ++ child.processResult) := by
    funext acc child
    rw [String.append_assoc]
  rw [hf, foldl_childSuffix]

/-- Own output line of the Types View for one node, before child
aggregation. -/
def typesNodeLine (c : ColorState) (n : TreeifierNode) : String :=
  c.StructureColor (n.prefixStr ++ n.joint) ++
    c.KeyColor n.key ++
    c.StructureColor " : " ++
    c.ValueColor (TreeifierUtils.nodeTypeToString n.nodeType)

/-- Own output line of the Values View for one node, before child
aggregation. -/
def valuesNodeLine (c : ColorState) (n : TreeifierNode) : String :=
  let circular :=
    if n.isCircular then
      jsNullishOrString
        (" -> " ++ jsStringOfUndefinable (n.circularRefNode.map (fun r => r.key))) "?"
    else ""
  let nodeValue := if n.isLeaf then n.toStr else ""
  c.StructureColor (n.prefixStr ++ n.joint) ++
    c.KeyColor n.key ++
    c.StructureColor (if nodeValue = "" then "" else " : ") ++
    c.ValueColor nodeValue ++
    c.CircularColor circular

/-- Circular-annotation text of the Debug view for one node. -/
def debugCircular (n : TreeifierNode) : String :=
  if n.isCircular then
    match n.circularRefNode with
    | some r => (jsPath r.value).getD r.key
    | none => ""
  else ""

/-- Value text of the Debug view for one node after the key-dispatched
formatting rules. -/
def debugValueString (n : TreeifierNode) : String :=
  let s0 := n.toStr
  let s1 := if n.key = "processResult" then escapeNewlines s0 else s0
  let s2 := if n.key = "nodeType" then TreeifierUtils.jsNodeTypeName n.value else s1
  if n.key = "ancestors" then
    "[" ++ String.intercalate ", " (n.ancestors.map (fun e => (jsPath e.value).getD "")) ++ "]"
  else s2

/-- Own output line of the Debug view for one surviving node, before
child aggregation. -/
def debugNodeLine (c : ColorState) (n : TreeifierNode) : String :=
  c.StructureColor (n.prefixStr ++ n.joint) ++
    c.KeyColor n.key ++
    c.ValueColor (if n.isLeaf ∨ n.key = "ancestors" then " " ++ debugValueString n else "") ++
    c.CircularColor (" " ++ debugCircular n)

/-- Suppression policy of the Debug view, collected from its guards. -/
def debugSuppressed (n : TreeifierNode) : Bool :=
  (n.key == "ancestors" && n.circularRefNode.isNone) ||
  (n.key == "circularRefIndex" && jsLtZero n.value) ||
  (n.key == "circularRefNode" && jsIsNull n.value) ||
  (n.key == "isCircular" && !jsLooseEqTrue n.value) ||
  (n.key == "children" && jsLengthLt1 n.value)

/-- Kind class emitted by the HTML view. -/
def htmlNodeTypeClass (n : TreeifierNode) : String :=
  "nt_" ++ TreeifierUtils.nodeTypeToString n.nodeType

/-- Key label of the HTML view: omitted exactly when the parent's kind
is arrayofobjects. -/
def htmlKeyLabel (n : TreeifierNode) : String :=
  if n.parent = some TreeifierNodeTypes.arrayofobjects then ""
  else "<span class=\"key\">" ++ n.key ++ "</span>: "

/-- Back-reference markup of the HTML view for a circular node. -/
def htmlCircularRef (n : TreeifierNode) : String :=
  let circularKey := (n.circularRefNode.map (fun r => r.key)).getD "?"
  let circularPath := (n.circularRefNode.map (fun r => r.path)).getD ""
  let circularLink :=
    if n.isCircular then
      "<a href=\"#list@" ++ circularPath ++ "\">" ++ circularKey ++ "</a>"
    else circularKey
  if n.isCircular then
    "<span class=\"circularlink\">" ++ circularLink ++ "</span>"
  else ""

/-- Value span of the HTML view, emitted for leaves only. -/
def htmlValueSpan (n : TreeifierNode) : String :=
  if n.isLeaf then
    "<span class=\"value" ++ (if n.isCircular then " circular" else "") ++ "\">" ++
      n.toStr ++ "</span> " ++ htmlCircularRef n
  else ""

/-- List-item opening emitted by the HTML view for a non-root node:
identifier equal to the node's path, class combining the fixed marker
leaf with the kind class, then the key label and the value span. -/
def htmlItemOpen (n : TreeifierNode) : String :=
  "<li id=\"" ++ n.path ++ "\" class=\"leaf " ++ htmlNodeTypeClass n ++ "\">\n" ++
    htmlKeyLabel n ++ htmlValueSpan n

/-- List type chosen by the HTML view for a branch node. -/
def htmlListTypeStr (n : TreeifierNode) : String :=
  if n.nodeType = TreeifierNodeTypes.arrayofobjects then "ol start=\"0\"" else "ul"

/-- List opening tag of the HTML view for a branch node. -/
def htmlListOpen (n : TreeifierNode) : String :=
  "<" ++ htmlListTypeStr n ++ " id=\"list@" ++ n.path ++ "\" class=\"branch " ++
    htmlNodeTypeClass n ++ "\">"

/-- List closing tag of the HTML view, built from the first two
characters of the list type. -/
def htmlListClose (n : TreeifierNode) : String :=
  "\n</" ++ (htmlListTypeStr n).take 2 ++ ">"

theorem defaultHTMLProcessor_eq (n : TreeifierNode) :
    TreeifierUtils.defaultHTMLProcessor n =
      (if n.parent.isSome then htmlItemOpen n else "") ++
      (if n.isBranch then "\n" ++ htmlListOpen n ++ childSuffix n.children ++ htmlListClose n
       else "") ++
      (if n.parent.isSome then "\n</li>" else "") := by
  by_cases hb : n.isBranch = true <;> by_cases hp : n.parent.isSome = true <;>
    simp [TreeifierUtils.defaultHTMLProcessor, htmlItemOpen, htmlKeyLabel, htmlValueSpan,
      htmlCircularRef, htmlNodeTypeClass, htmlListOpen, htmlListTypeStr, htmlListClose,
      foldl_childSuffix, foldl_childSuffix_assoc, hb, hp, String.append_assoc]

theorem str_append_eq_empty {a b : String} (h : a ++ b = "") : a = "" ∧ b = "" := by
  have hd := congrArg String.data h
  rw [String.data_append] at hd
  have hnil := List.append_eq_nil.mp hd
  exact ⟨String.ext hnil.1, String.ext hnil.2⟩

theorem defaultColoredTypesProcessor_eq (c : ColorState) (n : TreeifierNode) :
    TreeifierUtils.defaultColoredTypesProcessor c n =
      typesNodeLine c n ++ (if n.isBranch then childSuffix n.children else "") := by
  simp only [TreeifierUtils.defaultColoredTypesProcessor, typesNodeLine]
  by_cases hb : n.isBranch = true
  · rw [if_pos hb, if_pos hb, foldl_childSuffix]
  · rw [if_neg hb, if_neg hb, String.append_empty]

theorem defaultColoredValuesProcessor_eq (c : ColorState) (n : TreeifierNode) :
    TreeifierUtils.defaultColoredValuesProcessor c n =
      valuesNodeLine c n ++ (if n.isBranch then childSuffix n.children else "") := by
  simp only [TreeifierUtils.defaultColoredValuesProcessor, valuesNodeLine]
  by_cases hb : n.isBranch = true
  · rw [if_pos hb, if_pos hb, foldl_childSuffix]
  · rw [if_neg hb, if_neg hb, String.append_empty]

theorem debugProcessor_not_suppressed (c : ColorState) (n : TreeifierNode)
    (hs : debugSuppressed n = false) :
    TreeifierUtils.debugProcessor c n =
      debugNodeLine c n ++
        (if n.isBranch ∧ ¬ n.key = "ancestors" then childSuffix n.children else "") := by
  have g1 : ¬ (n.key = "ancestors" ∧ n.circularRefNode.isNone = true) := by
    intro hg
    simp [debugSuppressed, hg.1, hg.2] at hs
  have g2 : ¬ (n.key = "circularRefIndex" ∧ jsLtZero n.value = true) := by
    intro hg
    simp [debugSuppressed, hg.1, hg.2] at hs
  have g3 : ¬ (n.key = "circularRefNode" ∧ jsIsNull n.value = true) := by
    intro hg
    simp [debugSuppressed, hg.1, hg.2] at hs
  have g4 : ¬ (n.key = "isCircular" ∧ ¬ jsLooseEqTrue n.value = true) := by
    intro hg
    have hb : jsLooseEqTrue n.value = false := by
      cases hv : jsLooseEqTrue n.value
      · rfl
      · exact absurd hv hg.2
    simp [debugSuppressed, hg.1, hb] at hs
  have g5 : ¬ (n.key = "children" ∧ jsLengthLt1 n.value = true) := by
    intro hg
    simp [debugSuppressed, hg.1, hg.2] at hs
  simp only [TreeifierUtils.debugProcessor]
  rw [if_neg g1, if_neg g2, if_neg g3, if_neg g4, if_neg g5]
  by_cases hif : n.isBranch = true ∧ ¬ n.key = "ancestors"
  · rw [if_pos hif, if_pos hif, foldl_childSuffix]
    simp only [debugNodeLine, debugValueString, debugCircular]
  · rw [if_neg hif, if_neg hif, String.append_empty]
    simp only [debugNodeLine, debugValueString, debugCircular]

/-- Circular leaf node whose circularRefNode is missing while
isCircular is set (the shape named by claim C1's fallback clause). -/
def c1NodeMissingRef : TreeifierNode :=
  ⟨"self", .obj none, "a", "p.self", "", "", .object, some .object, [], true, none, []⟩

/-- Circular leaf node whose referenced node has the key root. -/
def c1NodeRootRef : TreeifierNode :=
  ⟨"self", .obj none, "a", "p.self", "", "", .object, some .object, [], true,
    some ⟨"root", "root", .obj (some "root")⟩, []⟩

/-- C1: the Values View appends the annotation with the referenced key
(the line for a circular leaf citing the key root does end with the
text arrow root), but for a circular node with no circularRefNode the
rendered line ends with the text arrow undefined, not with the
question-mark placeholder: the + operator binds tighter than the
nullish-coalescing operator, so the fallback in the source is dead
code and the claimed placeholder never appears. -/
theorem claim_C1_divergence :
    c1NodeMissingRef.isCircular = true ∧
    c1NodeMissingRef.circularRefNode.isNone = true ∧
    TreeifierUtils.defaultColoredValuesProcessor TreeifierUtils.plainColors c1NodeMissingRef =
      "self : a -> undefined" ∧
    ¬ ("-> ?".data <:+
        (TreeifierUtils.defaultColoredValuesProcessor TreeifierUtils.plainColors
          c1NodeMissingRef).data) ∧
    ("-> root".data <:+
      (TreeifierUtils.defaultColoredValuesProcessor TreeifierUtils.plainColors
        c1NodeRootRef).data) := by
  decide

/-- Root branch node with one non-empty child result, rendered by the
HTML strategy (the input refuting claim C2's claim shape). -/
def c2HtmlNode : TreeifierNode :=
  ⟨"r", .obj none, "", "p2", "", "", .object, none, [⟨"X"⟩], false, none, []⟩

/-- Branch node with children caching the results A, empty, B, used to
witness the amended aggregation claim. -/
def c2AggNode : TreeifierNode :=
  ⟨"k", .num 0, "", "p2w", "", "", .object, some .object, [⟨"A"⟩, ⟨""⟩, ⟨"B"⟩], false, none, []⟩

/-- C2 (counterexample): for the HTML strategy the children chunk is
not a suffix of the output (the closing list tags follow it), so at
this concrete branch node no decomposition of the output as an own
line followed by the newline-prefixed children chunk exists, refuting
the claim for that strategy. -/
theorem claim_C2_counterexample :
    ¬ ∃ own : String,
      applyStrategy StrategyId.html TreeifierUtils.plainColors c2HtmlNode =
        own ++ childSuffix c2HtmlNode.children := by
  intro hex
  obtain ⟨own, h⟩ := hex
  have hsuffix : (childSuffix c2HtmlNode.children).data <:+
      (applyStrategy StrategyId.html TreeifierUtils.plainColors c2HtmlNode).data := by
    refine ⟨own.data, ?_⟩
    rw [← String.data_append, h]
  revert hsuffix
  decide

/-- C2 (amended): for every branch node, the Types and Values
strategies return the node's own line followed by, for each child in
order whose cached processResult is non-empty, exactly one newline and
that result, children with empty results contributing nothing; the
Debug strategy does the same for nodes that are not suppressed and not
the ancestors special case; the HTML strategy emits that same children
chunk inside its list wrapper (between the opening list tag and the
closing tags) rather than at the end of its output.  No strategy
recomputes a child's rendering: child data enters only through the
cached processResult. -/
theorem claim_C2_branch_aggregation (c : ColorState) (n : TreeifierNode)
    (hb : n.isBranch = true) :
    TreeifierUtils.defaultColoredTypesProcessor c n =
      typesNodeLine c n ++ childSuffix n.children ∧
    TreeifierUtils.defaultColoredValuesProcessor c n =
      valuesNodeLine c n ++ childSuffix n.children ∧
    TreeifierUtils.defaultHTMLProcessor n =
      (if n.parent.isSome then htmlItemOpen n else "") ++
        ("\n" ++ htmlListOpen n ++ childSuffix n.children ++ htmlListClose n) ++
        (if n.parent.isSome then "\n</li>" else "") ∧
    (debugSuppressed n = false → ¬ n.key = "ancestors" →
      TreeifierUtils.debugProcessor c n = debugNodeLine c n ++ childSuffix n.children) := by
  refine ⟨?_, ?_, ?_, ?_⟩
  · rw [defaultColoredTypesProcessor_eq, if_pos hb]
  · rw [defaultColoredValuesProcessor_eq, if_pos hb]
  · rw [defaultHTMLProcessor_eq, if_pos hb]
  · intro hs hk
    rw [debugProcessor_not_suppressed c n hs, if_pos ⟨hb, hk⟩]

/-- Witness for the amended aggregation claim at a concrete branch
node whose children cache the results A, empty, B. -/
theorem claim_C2_witness :
    TreeifierUtils.defaultColoredTypesProcessor TreeifierUtils.plainColors c2AggNode =
      typesNodeLine TreeifierUtils.plainColors c2AggNode ++ childSuffix c2AggNode.children ∧
    TreeifierUtils.debugProcessor TreeifierUtils.plainColors c2AggNode =
      debugNodeLine TreeifierUtils.plainColors c2AggNode ++ childSuffix c2AggNode.children :=
  ⟨(claim_C2_branch_aggregation TreeifierUtils.plainColors c2AggNode (by decide)).1,
   (claim_C2_branch_aggregation TreeifierUtils.plainColors c2AggNode (by decide)).2.2.2
     (by decide) (by decide)⟩

/-- C3: the Debug view returns the empty string for the five suppressed
node shapes (negative circularRefIndex, null circularRefNode,
non-true isCircular, empty children sequence, and an ancestors node
whose own circularRefNode is none), while a circularRefIndex node with
value 2 is rendered as a non-empty line. -/
theorem claim_C3_debug_suppressions (c : ColorState) (n : TreeifierNode) :
    (n.key = "circularRefIndex" → ∀ v : Int, n.value = JSVal.num v → v < 0 →
      TreeifierUtils.debugProcessor c n = "") ∧
    (n.key = "circularRefNode" → n.value = JSVal.null →
      TreeifierUtils.debugProcessor c n = "") ∧
    (n.key = "isCircular" → ∀ b : Bool, n.value = JSVal.boolean b → b ≠ true →
      TreeifierUtils.debugProcessor c n = "") ∧
    (n.key = "children" → n.value = JSVal.arr [] →
      TreeifierUtils.debugProcessor c n = "") ∧
    (n.key = "ancestors" → n.circularRefNode = none →
      TreeifierUtils.debugProcessor c n = "") ∧
    (n.key = "circularRefIndex" → n.value = JSVal.num 2 →
      TreeifierUtils.debugProcessor TreeifierUtils.plainColors n ≠ "") := by
  refine ⟨?_, ?_, ?_, ?_, ?_, ?_⟩
  · intro hkey v hval hv
    simp [TreeifierUtils.debugProcessor, hkey, hval, jsLtZero, hv]
  · intro hkey hval
    simp [TreeifierUtils.debugProcessor, hkey, hval, jsIsNull]
  · intro hkey b hval hb
    have hbf : b = false := by
      cases b
      · rfl
      · exact absurd rfl hb
    subst hbf
    simp [TreeifierUtils.debugProcessor, hkey, hval, jsLooseEqTrue]
  · intro hkey hval
    simp [TreeifierUtils.debugProcessor, hkey, hval, jsLengthLt1]
  · intro hkey hcrn
    simp [TreeifierUtils.debugProcessor, hkey, hcrn]
  · intro hkey hval heq
    have hs : debugSuppressed n = false := by
      simp [debugSuppressed, hkey, hval, jsLtZero, jsIsNull, jsLooseEqTrue, jsLengthLt1]
    rw [debugProcessor_not_suppressed _ _ hs] at heq
    obtain ⟨h1, _⟩ := str_append_eq_empty heq
    simp only [debugNodeLine] at h1
    obtain ⟨h2, _⟩ := str_append_eq_empty h1
    obtain ⟨h3, _⟩ := str_append_eq_empty h2
    obtain ⟨_, h4⟩ := str_append_eq_empty h3
    have h5 : n.key = "" := h4
    rw [hkey] at h5
    exact absurd h5 (by decide)

/-- Debug-tree node for a negative circularRefIndex attribute. -/
def c3NodeNegIndex : TreeifierNode :=
  ⟨"circularRefIndex", .num (-1), "-1", "p.cri", "", "", .value, some .object, [],
    false, none, []⟩

/-- Debug-tree node for a null circularRefNode attribute. -/
def c3NodeNullRef : TreeifierNode :=
  ⟨"circularRefNode", .null, "null", "p.crn", "", "", .value, some .object, [],
    false, none, []⟩

/-- Debug-tree node for an isCircular attribute holding false. -/
def c3NodeNotCircular : TreeifierNode :=
  ⟨"isCircular", .boolean false, "false", "p.ic", "", "", .value, some .object, [],
    false, none, []⟩

/-- Debug-tree node for an empty children attribute. -/
def c3NodeNoChildren : TreeifierNode :=
  ⟨"children", .arr [], "", "p.ch", "", "", .array, some .object, [],
    false, none, []⟩

/-- Debug-tree node for an ancestors attribute on a non-circular node. -/
def c3NodeAncestors : TreeifierNode :=
  ⟨"ancestors", .arr [], "", "p.an", "", "", .array, some .object, [⟨"X"⟩],
    false, none, []⟩

/-- Debug-tree node for a circularRefIndex attribute holding 2. -/
def c3NodeIndexTwo : TreeifierNode :=
  ⟨"circularRefIndex", .num 2, "2", "p.cri2", "", "", .value, some .object, [],
    false, none, []⟩

/-- Witness instantiating every suppression clause and the rendered
clause of the Debug-view claim at concrete nodes. -/
theorem claim_C3_witness :
    TreeifierUtils.debugProcessor TreeifierUtils.plainColors c3NodeNegIndex = "" ∧
    TreeifierUtils.debugProcessor TreeifierUtils.plainColors c3NodeNullRef = "" ∧
    TreeifierUtils.debugProcessor TreeifierUtils.plainColors c3NodeNotCircular = "" ∧
    TreeifierUtils.debugProcessor TreeifierUtils.plainColors c3NodeNoChildren = "" ∧
    TreeifierUtils.debugProcessor TreeifierUtils.plainColors c3NodeAncestors = "" ∧
    TreeifierUtils.debugProcessor TreeifierUtils.plainColors c3NodeIndexTwo ≠ "" :=
  ⟨(claim_C3_debug_suppressions TreeifierUtils.plainColors c3NodeNegIndex).1
      rfl (-1) rfl (by decide),
   (claim_C3_debug_suppressions TreeifierUtils.plainColors c3NodeNullRef).2.1 rfl rfl,
   (claim_C3_debug_suppressions TreeifierUtils.plainColors c3NodeNotCircular).2.2.1
      rfl false rfl (by decide),
   (claim_C3_debug_suppressions TreeifierUtils.plainColors c3NodeNoChildren).2.2.2.1 rfl rfl,
   (claim_C3_debug_suppressions TreeifierUtils.plainColors c3NodeAncestors).2.2.2.2.1 rfl rfl,
   (claim_C3_debug_suppressions TreeifierUtils.plainColors c3NodeIndexTwo).2.2.2.2.2 rfl rfl⟩

/-- Non-root branch node used for the list-item class claims. -/
def c4Node : TreeifierNode :=
  ⟨"k", .obj none, "", "p4", "", "", .object, some .object, [⟨"X"⟩], false, none, []⟩

/-- C4 (counterexample): at a non-root branch node the emitted list
item opens with the fixed class marker leaf, not with a branch marker,
so the class attribute does not reflect whether the node is a leaf or
a branch. -/
theorem claim_C4_counterexample :
    c4Node.isBranch = true ∧
    (("<li id=\"p4\" class=\"leaf " : String).data <+:
      (TreeifierUtils.defaultHTMLProcessor c4Node).data) ∧
    ¬ (("<li id=\"p4\" class=\"branch" : String).data <+:
      (TreeifierUtils.defaultHTMLProcessor c4Node).data) := by
  decide

/-- C4 (amended): every non-root node is emitted as a list item whose
identifier equals the node's path and whose class attribute always
combines the fixed marker leaf with the kind class of the form nt_
followed by the kind name; the branch marker appears only on the
nested list element of a branch node, not on its list item. -/
theorem claim_C4_amended (n : TreeifierNode) (h : n.parent.isSome = true) :
    htmlNodeTypeClass n = "nt_" ++ TreeifierUtils.nodeTypeToString n.nodeType ∧
    ∃ rest, TreeifierUtils.defaultHTMLProcessor n =
      "<li id=\"" ++ n.path ++ "\" class=\"leaf " ++ htmlNodeTypeClass n ++ "\">\n" ++ rest := by
  refine ⟨rfl, ?_⟩
  refine ⟨htmlKeyLabel n ++ htmlValueSpan n ++
    ((if n.isBranch then "\n" ++ htmlListOpen n ++ childSuffix n.children ++ htmlListClose n
      else "") ++ "\n</li>"), ?_⟩
  rw [defaultHTMLProcessor_eq, if_pos h, if_pos h]
  simp only [htmlItemOpen, String.append_assoc]

/-- Witness for the amended list-item claim at the concrete non-root
branch node. -/
theorem claim_C4_witness :
    c4Node.parent.isSome = true ∧
    (htmlNodeTypeClass c4Node = "nt_" ++ TreeifierUtils.nodeTypeToString c4Node.nodeType ∧
     ∃ rest, TreeifierUtils.defaultHTMLProcessor c4Node =
       "<li id=\"" ++ c4Node.path ++ "\" class=\"leaf " ++ htmlNodeTypeClass c4Node ++
         "\">\n" ++ rest) :=
  ⟨rfl, claim_C4_amended c4Node rfl⟩

/-- C5: the key label span is omitted exactly when the parent's kind is
arrayofobjects; for a branch node an ordered list tag starting at index
0 is opened exactly when the node's own kind is arrayofobjects and an
unordered list tag otherwise, the list identifier is list@ followed by
the node's path, and the list is closed with the tag matching its
opening type. -/
theorem claim_C5_html_lists (n : TreeifierNode) :
    htmlKeyLabel n =
      (if n.parent = some TreeifierNodeTypes.arrayofobjects then ""
       else "<span class=\"key\">" ++ n.key ++ "</span>: ") ∧
    htmlListOpen n =
      "<" ++ htmlListTypeStr n ++ " id=\"list@" ++ n.path ++ "\" class=\"branch " ++
        htmlNodeTypeClass n ++ "\">" ∧
    htmlListTypeStr n =
      (if n.nodeType = TreeifierNodeTypes.arrayofobjects then "ol start=\"0\"" else "ul") ∧
    htmlListClose n =
      (if n.nodeType = TreeifierNodeTypes.arrayofobjects then "\n</ol>" else "\n</ul>") ∧
    TreeifierUtils.defaultHTMLProcessor n =
      (if n.parent.isSome then htmlItemOpen n else "") ++
        (if n.isBranch then "\n" ++ htmlListOpen n ++ childSuffix n.children ++ htmlListClose n
         else "") ++
        (if n.parent.isSome then "\n</li>" else "") ∧
    htmlItemOpen n =
      "<li id=\"" ++ n.path ++ "\" class=\"leaf " ++ htmlNodeTypeClass n ++ "\">\n" ++
        htmlKeyLabel n ++ htmlValueSpan n := by
  refine ⟨rfl, rfl, rfl, ?_, defaultHTMLProcessor_eq n, rfl⟩
  by_cases h : n.nodeType = TreeifierNodeTypes.arrayofobjects
  · simp only [htmlListClose, htmlListTypeStr, if_pos h]
    decide
  · simp only [htmlListClose, htmlListTypeStr, if_neg h]
    decide

/-- C6: each of the four strategies is deterministic in the state of
the four style functions and the input node: equal style functions and
equal nodes (with their cached child results) give equal output. -/
theorem claim_C6_determinism (s : StrategyId) (ca cb : ColorState) (na nb : TreeifierNode)
    (hS : ca.StructureColor = cb.StructureColor) (hK : ca.KeyColor = cb.KeyColor)
    (hV : ca.ValueColor = cb.ValueColor) (hC : ca.CircularColor = cb.CircularColor)
    (hn : na = nb) :
    applyStrategy s ca na = applyStrategy s cb nb := by
  subst hn
  obtain ⟨aS, aK, aV, aC⟩ := ca
  obtain ⟨bS, bK, bV, bC⟩ := cb
  cases hS
  cases hK
  cases hV
  cases hC
  rfl

/-- Concrete leaf node for the determinism witness. -/
def c6Node : TreeifierNode :=
  ⟨"w", .num 1, "1", "p6", "", "", .value, none, [], false, none, []⟩

/-- Witness for the determinism claim at a concrete strategy, registry
state and node. -/
theorem claim_C6_witness :
    applyStrategy StrategyId.values TreeifierUtils.defaultColors c6Node =
      applyStrategy StrategyId.values TreeifierUtils.defaultColors c6Node :=
  claim_C6_determinism StrategyId.values TreeifierUtils.defaultColors
    TreeifierUtils.defaultColors c6Node c6Node rfl rfl rfl rfl rfl

/-- C7: resetting the registry restores all four style functions to
their fixed defaults whatever the prior state (any two reset results
agree), and resetting twice equals resetting once. -/
theorem claim_C7_reset_idempotent (st1 st2 : ColorState) :
    TreeifierUtils.resetAllColors st1 = TreeifierUtils.defaultColors ∧
    TreeifierUtils.resetAllColors st1 = TreeifierUtils.resetAllColors st2 ∧
    TreeifierUtils.resetAllColors (TreeifierUtils.resetAllColors st1) =
      TreeifierUtils.resetAllColors st1 := by
  obtain ⟨a, b, c, d⟩ := st1
  obtain ⟨e, f, g, h⟩ := st2
  exact ⟨rfl, rfl, rfl⟩

/-- C8: debugResultNode renders the given root through the Debug
strategy using the supplied engine, or a freshly constructed default
engine when none is supplied, labeling the synthetic root with debug@
concatenated with the original root's key. -/
theorem claim_C8_debugResultNode (root : TreeifierNode) (t : Treeifier) :
    TreeifierUtils.debugResultNode root (some t) =
      t.processFn root ("debug@" ++ root.key) TreeifierUtils.debugProcessor ∧
    TreeifierUtils.debugResultNode root none =
      Treeifier.new.processFn root ("debug@" ++ root.key) TreeifierUtils.debugProcessor :=
  ⟨rfl, rfl⟩

/-- C9: the Types View never returns an empty string, for any node,
whenever the structure decoration keeps the separator text non-empty
(which holds for the default chalk palette and for undecorated
output); its output always contains the decorated separator, so a
child rendered by the Types View is never dropped by the empty-result
skipping of its parent. -/
theorem claim_C9_types_nonempty (c : ColorState) (n : TreeifierNode)
    (hsep : c.StructureColor " : " ≠ "") :
    TreeifierUtils.defaultColoredTypesProcessor c n ≠ "" := by
  intro heq
  rw [defaultColoredTypesProcessor_eq] at heq
  obtain ⟨h1, _⟩ := str_append_eq_empty heq
  simp only [typesNodeLine] at h1
  obtain ⟨h2, _⟩ := str_append_eq_empty h1
  obtain ⟨_, h3⟩ := str_append_eq_empty h2
  exact hsep h3

/-- Concrete leaf node for the non-empty Types View witness. -/
def c9Node : TreeifierNode :=
  ⟨"name", .str "Bobby", "Bobby", "p9", "", "", .value, some .object, [], false, none, []⟩

/-- Witness for the non-empty Types View claim under the default chalk
palette. -/
theorem claim_C9_witness :
    TreeifierUtils.defaultColoredTypesProcessor TreeifierUtils.defaultColors c9Node ≠ "" :=
  claim_C9_types_nonempty TreeifierUtils.defaultColors c9Node (by decide)

/-- C10: invoking any strategy against the registry leaves the registry
state unchanged and returns exactly the pure rendering: the strategies
only read the four style functions. -/
theorem claim_C10_read_only_registry (s : StrategyId) (n : TreeifierNode) (st : ColorState) :
    ((registryRender s n).run st).2 = st ∧
    ((registryRender s n).run st).1 = applyStrategy s st n :=
  ⟨rfl, rfl⟩
